import Mathlib

/-!
Verification of the cso2 master-server core against its specification.

The development shallowly embeds the TypeScript sources:

* the per-connection sequence counter of ExtendedSocket
  (src/unnamed/part_002),
* the ActiveConnections registry (src/unnamed/part_003),
* the UserManager login and host handlers (src/src/user/usermanager.ts),
* the RoomHandler join and settings handlers (src/unnamed/part_001),
* PacketString (src/master-server/src/packets/packetstring.ts),
* UsersService.get with its LRU cache (src/website/src/services/usersservice.ts),
* checkServices over the upstream probe (src/unnamed/part_001).

JavaScript null and undefined are embedded as Option.none; a JavaScript
runtime exception (TypeError on a null dereference, RangeError on an
out-of-bounds Buffer read, an explicit throw) is embedded through Except.
-/

namespace Cso2

/-- Kinds of JavaScript runtime exceptions the embedded code can raise. -/
inductive JsError
  /-- dereference of a null or undefined value -/
  | typeError
  /-- Buffer read out of bounds -/
  | rangeError
  /-- explicit throw from the PacketString length validation -/
  | lengthMismatch
deriving DecidableEq, Repr

/-- The GAME string constants sent to users in dialog boxes and
system-chat messages (module gamestrings). -/
inductive GameString
  | LOGIN_BAD_USERNAME
  | LOGIN_BAD_PASSWORD
  | LOGIN_INVALID_USERINFO
  | ROOM_JOIN_FAILED_CLOSED
  | ROOM_JOIN_FAILED_FULL
  | ROOM_JOIN_FAILED_BAD_PASSWORD
  | ROOM_CHANGETEAM_FAILED
  | ROOM_COUNTDOWN_FAILED_NOENEMIES
deriving DecidableEq, Repr

/-! ## ExtendedSocket sequence counter (src/unnamed/part_002)

The field declaration is read as a JavaScript number that can also be
undefined or NaN.  Both undefined and NaN compare false under the
numeric greater-than test and both turn into NaN under the postfix
increment, so the embedding collapses them into Option.none; a genuine
numeric value n is Option.some n. -/

/-- Mutable state of an ExtendedSocket that the sequence logic touches.
Field declarations follow the class body of src/unnamed/part_002. -/
structure SocketSeqState where
  /-- the current packet sequence (1 byte long); the class never
  initializes it in ExtendedSocket.from, so it starts undefined -/
  seq : Option Nat
  /-- the real current packet sequence, used by logger (incoming) -/
  realInSeq : Nat
  /-- the real current packet sequence, used by logger (outgoing) -/
  realOutSeq : Nat
deriving DecidableEq, Repr

/-- ExtendedSocket.from: sets session to null, realInSeq and realOutSeq
to MIN_SEQUENCE (0), and assigns the packet dumper.  It does NOT assign
seq, which therefore remains undefined. -/
def socketFrom : SocketSeqState :=
  { seq := none, realInSeq := 0, realOutSeq := 0 }

/-- getNextSeq: if seq > MAX_SEQUENCE (255) then resetReq sets seq to
MIN_SEQUENCE (0); afterwards the postfix increment returns the current
value and bumps the field.  When seq is undefined or NaN the comparison
is false and the increment produces NaN, so no numeric byte is ever
produced again. -/
def getNextSeq (s : SocketSeqState) : Option Nat × SocketSeqState :=
  match s.seq with
  | none => (none, s)
  | some n =>
    if n > 255 then
      (some 0, { s with seq := some 1 })
    else
      (some n, { s with seq := some (n + 1) })

/-- The sequence values that ExtendedSocket.send stamps into byte 1 of
the next n outgoing frames (data.writeUInt8(this.getNextSeq(), 1)). -/
def stampSeqs : Nat → SocketSeqState → List (Option Nat)
  | 0, _ => []
  | n + 1, s =>
    let r := getNextSeq s
    r.1 :: stampSeqs n r.2

/-- The contiguous mod-256 series the specification expects for k frames
starting at byte 0: 0, 1, ..., 255, 0, 1, ... -/
def specSeqSeries (k : Nat) : List (Option Nat) :=
  (List.range k).map (fun i => some (i % 256))

/-! ## ActiveConnections registry (src/unnamed/part_003) -/

/-- User record as the registry and handlers read it. -/
structure User where
  id : Nat
  username : String
  playername : String
deriving DecidableEq, Repr

/-- UserSession: the user plus the nullable current channel and current
room references (rooms are referenced by id to break the object cycle). -/
structure UserSession where
  user : User
  currentChannelId : Option Nat
  currentRoomId : Option Nat
deriving DecidableEq, Repr

/-- Modelled from the spec: user/usersession.ts is not among the given
sources; the spec describes a session as holding a nullable current
room, and the handlers guard with isInRoom before touching it, so
isInRoom holds exactly when the current room reference is non-null. -/
def UserSession.isInRoom (s : UserSession) : Bool :=
  s.currentRoomId.isSome

/-- The parts of an ExtendedSocket that registry and handler code
reads: the socket uuid (identity) and the nullable session. -/
structure ExtSocket where
  uuid : Nat
  session : Option UserSession
deriving DecidableEq, Repr

/-- ActiveConnections.FindByOwnerId: scan the connections array in
order and return the first whose conn.session.user.id equals the owner
id, or null.  Reading session.user on a null session raises a
TypeError. -/
def FindByOwnerId : List ExtSocket → Nat → Except JsError (Option ExtSocket)
  | [], _ => .ok none
  | c :: rest, ownerId =>
    match c.session with
    | none => .error .typeError
    | some s =>
      if s.user.id = ownerId then .ok (some c)
      else FindByOwnerId rest ownerId

/-- ActiveConnections.FindByPlayerName, same scan keyed on
conn.session.user.playername. -/
def FindByPlayerName : List ExtSocket → String → Except JsError (Option ExtSocket)
  | [], _ => .ok none
  | c :: rest, targetName =>
    match c.session with
    | none => .error .typeError
    | some s =>
      if s.user.playername = targetName then .ok (some c)
      else FindByPlayerName rest targetName

/-- ActiveConnections.Add: this.connections.push(conn). -/
def registryAdd (conns : List ExtSocket) (c : ExtSocket) : List ExtSocket :=
  conns ++ [c]

/-- Array.prototype.indexOf: index of the first strictly-equal element,
or -1 when absent. -/
def jsIndexOf (conns : List ExtSocket) (c : ExtSocket) : Int :=
  match conns.indexOf? c with
  | some i => (i : Int)
  | none => -1

/-- Array.prototype.splice(start, 1): a negative start counts back from
the end (clamped at 0), then at most one element is removed at the
resulting position. -/
def jsSplice1 (conns : List ExtSocket) (start : Int) : List ExtSocket :=
  let len : Int := conns.length
  let actual : Nat := (if start < 0 then max (len + start) 0 else min start len).toNat
  conns.take actual ++ conns.drop (actual + 1)

/-- ActiveConnections.Remove:
this.connections.splice(this.connections.indexOf(conn), 1). -/
def registryRemove (conns : List ExtSocket) (c : ExtSocket) : List ExtSocket :=
  jsSplice1 conns (jsIndexOf conns c)

/-- Predicate FindByOwnerId scans for: the session is present and its
user id matches. -/
def ownerMatches (ownerId : Nat) (c : ExtSocket) : Bool :=
  match c.session with
  | none => false
  | some s => s.user.id = ownerId

/-- Predicate FindByPlayerName scans for: the session is present and
its player name matches. -/
def nameMatches (targetName : String) (c : ExtSocket) : Bool :=
  match c.session with
  | none => false
  | some s => s.user.playername = targetName

/-! ## Room model

The file room/room.ts is not among the given sources; only its callers
are.  The room record and the handful of methods the handlers invoke
are modelled from the spec (sections 3, 4.6 and 8). -/

/-- Room status set, from the spec data model:
status in {Waiting, Countdown, Ingame, Result, Closed}. -/
inductive RoomStatus
  | Waiting
  | Countdown
  | Ingame
  | Result
  | Closed
deriving DecidableEq, Repr

/-- Room settings record (name, password, map, mode, kill/win limits,
bots-enabled), as the handlers and the spec data model use it. -/
structure RoomSettings where
  roomName : String
  roomPassword : String
  gameModeId : Nat
  mapId : Nat
  killLimit : Nat
  winLimit : Nat
  areBotsEnabled : Bool
deriving DecidableEq, Repr

/-- Room record: id, host user id, occupant user ids in join order,
fixed slot capacity, settings and status. -/
structure Room where
  id : Nat
  hostUserId : Nat
  occupantUserIds : List Nat
  maxPlayers : Nat
  settings : RoomSettings
  status : RoomStatus
deriving DecidableEq, Repr

/-- Modelled from the spec: room/room.ts is absent; the spec requires a
free slot as a join precondition, so hasFreeSlots holds exactly when
the occupant count is below the fixed slot capacity. -/
def Room.hasFreeSlots (r : Room) : Bool :=
  decide (r.occupantUserIds.length < r.maxPlayers)

/-- Modelled from the spec: room/room.ts is absent; the spec says an
empty password means a public room, so a room is password protected
exactly when its password is non-empty. -/
def Room.IsPasswordProtected (r : Room) : Bool :=
  decide (r.settings.roomPassword ≠ "")

/-- Modelled from the spec: room/room.ts is absent; the spec says
passwords are compared byte-for-byte. -/
def Room.ComparePassword (r : Room) (pwd : String) : Bool :=
  decide (r.settings.roomPassword = pwd)

/-- Modelled from the spec: room/room.ts is absent; addUser appends the
joiner to the occupant list (join order is preserved for host
migration). -/
def Room.addUser (r : Room) (userId : Nat) : Room :=
  { r with occupantUserIds := r.occupantUserIds ++ [userId] }

/-- Modelled from the spec: room/room.ts is absent; the spec states
that a room in Countdown or Ingame rejects settings mutation and that
the UpdateSettings precondition is not being in Countdown/Ingame, so
the countdown/match-in-progress test of the handler holds exactly on
those two statuses. -/
def Room.isGlobalCountdownInProgress (r : Room) : Bool :=
  decide (r.status = RoomStatus.Countdown ∨ r.status = RoomStatus.Ingame)

/-- UpdateSettings request: the subset of settings fields present in
the packet (absent fields leave the current value untouched). -/
structure InRoomUpdateSettings where
  roomName : Option String
  roomPassword : Option String
  gameModeId : Option Nat
  mapId : Option Nat
  killLimit : Option Nat
  winLimit : Option Nat
  areBotsEnabled : Option Bool
deriving DecidableEq, Repr

/-- Modelled from the spec: room/room.ts is absent; updateSettings
replaces the subset of fields carried by the request. -/
def Room.updateSettings (r : Room) (req : InRoomUpdateSettings) : Room :=
  { r with
    settings :=
      { roomName := req.roomName.getD r.settings.roomName
        roomPassword := req.roomPassword.getD r.settings.roomPassword
        gameModeId := req.gameModeId.getD r.settings.gameModeId
        mapId := req.mapId.getD r.settings.mapId
        killLimit := req.killLimit.getD r.settings.killLimit
        winLimit := req.winLimit.getD r.settings.winLimit
        areBotsEnabled := req.areBotsEnabled.getD r.settings.areBotsEnabled } }

/-- Channel.getRoomById: the channel's room with that id, or null. -/
def getRoomById (rooms : List Room) (roomId : Nat) : Option Room :=
  rooms.find? (fun r => decide (r.id = roomId))

/-- Resolution of session.currentRoom: the nullable room reference held
by the session, read against the channel's room store. -/
def resolveRoom (rooms : List Room) (session : UserSession) : Option Room :=
  session.currentRoomId.bind (getRoomById rooms)

/-- Mutation through the room reference: the room with the given id is
replaced in the channel's store. -/
def storeRoom (rooms : List Room) (updated : Room) : List Room :=
  rooms.map (fun r => if r.id = updated.id then updated else r)

/-! ## UserManager host handlers (src/src/user/usermanager.ts)

onItemUsing and onTeamChangingRequest resolve the target connection
through the registry and read targetConn.session BEFORE any null check
on targetConn; the checks on requesterSession and targetSession follow.
The room the requester is in is read through its session. -/

/-- InHostItemUsing payload: target user id and item id. -/
structure InHostItemUsing where
  userId : Nat
  itemId : Nat
deriving DecidableEq, Repr

/-- InHostTeamChanging payload: target user id and desired team. -/
structure InHostTeamChanging where
  userId : Nat
  newTeam : Nat
deriving DecidableEq, Repr

/-- RoomTeamNum wire values used by the team-changing validation. -/
def RoomTeamNum.Terrorist : Nat := 1

/-- RoomTeamNum wire value of the counter-terrorist team. -/
def RoomTeamNum.CounterTerrorist : Nat := 2

/-- UserManager.onItemUsing (src/src/user/usermanager.ts lines
222-276).  Returns the handler's boolean outcome, or a JsError when the
JavaScript code would throw.  The channel's room store stands for the
rooms reachable from requesterSession.currentRoom. -/
def onItemUsing (conns : List ExtSocket) (rooms : List Room)
    (itemData : InHostItemUsing) (userConn : ExtSocket) :
    Except JsError Bool := do
  let targetConn ← FindByOwnerId conns itemData.userId
  -- const targetSession = targetConn.session: throws on a null targetConn
  let targetSession ←
    match targetConn with
    | none => Except.error JsError.typeError
    | some tc => Except.ok tc.session
  match userConn.session with
  | none => return false
  | some requesterSession =>
    if requesterSession.isInRoom = false then return false
    else
      match targetSession with
      | none => return false
      | some _ =>
        match resolveRoom rooms requesterSession with
        | none => return false
        | some currentRoom =>
          if currentRoom.hostUserId ≠ requesterSession.user.id then
            return false
          else
            -- userConn.send(OutHostPacket.itemUse(..)) then success
            return true

/-- UserManager.onTeamChangingRequest (src/src/user/usermanager.ts
lines 278-342), with the same early targetConn.session read.  The
returned room store reflects updateUserTeam on success. -/
def onTeamChangingRequest (conns : List ExtSocket) (rooms : List Room)
    (teamData : InHostTeamChanging) (userConn : ExtSocket) :
    Except JsError Bool := do
  let targetConn ← FindByOwnerId conns teamData.userId
  let targetSession ←
    match targetConn with
    | none => Except.error JsError.typeError
    | some tc => Except.ok tc.session
  match userConn.session with
  | none => return false
  | some requesterSession =>
    if requesterSession.isInRoom = false then return false
    else
      match targetSession with
      | none => return false
      | some _ =>
        match resolveRoom rooms requesterSession with
        | none => return false
        | some currentRoom =>
          if currentRoom.hostUserId ≠ requesterSession.user.id then
            return false
          else if teamData.newTeam ≠ RoomTeamNum.Terrorist ∧
              teamData.newTeam ≠ RoomTeamNum.CounterTerrorist then
            return false
          else
            -- currentRoom.updateUserTeam(targetSession.user.id, newTeam)
            return true

/-! ## UserManager.onLoginPacket (src/src/user/usermanager.ts 117-177)

The two upstream calls are embedded as the values they produce:
loggedUserId is what userService.Login returned (0 for no such user,
-1 for a bad password, the user id otherwise) and fetchedUser is what
userService.GetUserById returned afterwards. -/

/-- Observable outcome of onLoginPacket: the boolean result, the dialog
boxes sent, the connection's session afterwards and the registry
afterwards. -/
structure LoginOutcome where
  ret : Bool
  dialogs : List GameString
  sessionAfter : Option UserSession
  registryAfter : List ExtSocket
deriving DecidableEq, Repr

/-- UserManager.onLoginPacket.  On success the new session is attached
to the connection and the connection is pushed into
ActiveConnections. -/
def onLoginPacket (loggedUserId : Int) (fetchedUser : Option User)
    (conn : ExtSocket) (conns : List ExtSocket) : LoginOutcome :=
  if loggedUserId = 0 then
    { ret := false
      dialogs := [GameString.LOGIN_BAD_USERNAME]
      sessionAfter := conn.session
      registryAfter := conns }
  else if loggedUserId = -1 then
    { ret := false
      dialogs := [GameString.LOGIN_BAD_PASSWORD]
      sessionAfter := conn.session
      registryAfter := conns }
  else
    match fetchedUser with
    | none =>
      { ret := false
        dialogs := [GameString.LOGIN_INVALID_USERINFO]
        sessionAfter := conn.session
        registryAfter := conns }
    | some user =>
      let newSession : UserSession :=
        { user := user, currentChannelId := none, currentRoomId := none }
      { ret := true
        dialogs := []
        sessionAfter := some newSession
        registryAfter :=
          registryAdd conns { conn with session := some newSession } }

/-! ## RoomHandler (src/unnamed/part_001) -/

/-- InRoomJoinRequest payload: target room id and supplied password. -/
structure InRoomJoinRequest where
  roomId : Nat
  roomPassword : String
deriving DecidableEq, Repr

/-- Observable outcome of onJoinRoomRequest: the boolean result, the
dialogs sent to the requester, the requester's session afterwards, and
the channel's room store afterwards (none mirrors a null
session.currentChannel). -/
structure JoinOutcome where
  ret : Bool
  dialogs : List GameString
  sessionAfter : UserSession
  roomsAfter : Option (List Room)
deriving DecidableEq, Repr

/-- RoomHandler.onJoinRoomRequest (src/unnamed/part_001 lines 305-382).
channelRooms is the room store of session.currentChannel, none when the
session is in no channel. -/
def onJoinRoomRequest (joinReq : InRoomJoinRequest) (session : UserSession)
    (channelRooms : Option (List Room)) : JoinOutcome :=
  match channelRooms with
  | none =>
    { ret := false, dialogs := [], sessionAfter := session,
      roomsAfter := none }
  | some rooms =>
    match getRoomById rooms joinReq.roomId with
    | none =>
      { ret := false
        dialogs := [GameString.ROOM_JOIN_FAILED_CLOSED]
        sessionAfter := session
        roomsAfter := some rooms }
    | some desiredRoom =>
      if desiredRoom.hasFreeSlots = false then
        { ret := false
          dialogs := [GameString.ROOM_JOIN_FAILED_FULL]
          sessionAfter := session
          roomsAfter := some rooms }
      else if desiredRoom.IsPasswordProtected = true ∧
          desiredRoom.ComparePassword joinReq.roomPassword = false then
        { ret := false
          dialogs := [GameString.ROOM_JOIN_FAILED_BAD_PASSWORD]
          sessionAfter := session
          roomsAfter := some rooms }
      else
        { ret := true
          dialogs := []
          sessionAfter := { session with currentRoomId := some desiredRoom.id }
          roomsAfter :=
            some (storeRoom rooms (desiredRoom.addUser session.user.id)) }

/-- Observable outcome of onRoomUpdateSettings: the boolean result, the
requester's session afterwards and the channel's room store
afterwards. -/
structure UpdateSettingsOutcome where
  ret : Bool
  sessionAfter : UserSession
  roomsAfter : List Room
deriving DecidableEq, Repr

/-- RoomHandler.onRoomUpdateSettings (src/unnamed/part_001 lines
531-578): no room, a non-host requester, or a countdown/match in
progress deny the request; otherwise the settings are replaced. -/
def onRoomUpdateSettings (req : InRoomUpdateSettings)
    (session : UserSession) (rooms : List Room) : UpdateSettingsOutcome :=
  match resolveRoom rooms session with
  | none => { ret := false, sessionAfter := session, roomsAfter := rooms }
  | some currentRoom =>
    if session.user.id ≠ currentRoom.hostUserId then
      { ret := false, sessionAfter := session, roomsAfter := rooms }
    else if currentRoom.isGlobalCountdownInProgress then
      { ret := false, sessionAfter := session, roomsAfter := rooms }
    else
      { ret := true
        sessionAfter := session
        roomsAfter := storeRoom rooms (currentRoom.updateSettings req) }

/-! ## PacketString (src/master-server/src/packets/packetstring.ts)

The embedding is parametric in the UTF-8 codec supplied by the Node
runtime (TextEncoder for encoding, Buffer.toString for decoding): a
codec turns a string value into its byte sequence and back, with every
byte below 256 and decoding left-inverse to encoding.  The class logic
itself (length prefix, slice, length validation) is embedded from the
source. -/

/-- The string codec the runtime supplies to PacketString. -/
structure Utf8Codec (σ : Type) where
  encode : σ → List Nat
  decode : List Nat → σ
  encode_byte : ∀ s, ∀ b ∈ encode s, b < 256
  decode_encode : ∀ s, decode (encode s) = s

/-- A constructed PacketString: the string, its UTF-8 byte count
(actualStrLen) and the byte count plus the size byte (totalLen). -/
structure PacketStringRec (σ : Type) where
  str : σ
  actualStrLen : Nat
  totalLen : Nat
deriving DecidableEq, Repr

/-- The PacketString constructor with an explicit rawLength: when
rawLength is non-zero and differs from the UTF-8 byte count of the
string, the constructor throws. -/
def mkPacketString {σ : Type} (codec : Utf8Codec σ) (s : σ)
    (rawLength : Nat) : Except JsError (PacketStringRec σ) :=
  let expectedLen := (codec.encode s).length
  if rawLength ≠ 0 ∧ expectedLen ≠ rawLength then
    Except.error JsError.lengthMismatch
  else
    Except.ok { str := s, actualStrLen := expectedLen,
                totalLen := expectedLen + 1 }

/-- The PacketString constructor with the default rawLength of 0, which
never throws. -/
def packetStringOf {σ : Type} (codec : Utf8Codec σ) (s : σ) :
    PacketStringRec σ :=
  { str := s
    actualStrLen := (codec.encode s).length
    totalLen := (codec.encode s).length + 1 }

/-- PacketString.toBuffer: Buffer.alloc(totalLen) zero-filled, byte 0
set to actualStrLen (Buffer element assignment truncates modulo 256),
then write(str, 1, actualStrLen) copies at most actualStrLen bytes of
the UTF-8 encoding; shorter writes leave the zero fill. -/
def packetStringToBuffer {σ : Type} (codec : Utf8Codec σ)
    (ps : PacketStringRec σ) : List Nat :=
  let payload := (codec.encode ps.str).take ps.actualStrLen
  (ps.actualStrLen % 256) ::
    (payload ++ List.replicate (ps.totalLen - 1 - payload.length) 0)

/-- PacketString.from: readUInt8(0) (a RangeError on an empty buffer),
slice(1, 1 + length) decoded as UTF-8, then the constructor runs its
length validation against the declared length. -/
def packetStringFrom {σ : Type} (codec : Utf8Codec σ) (data : List Nat) :
    Except JsError (PacketStringRec σ) :=
  match data with
  | [] => Except.error JsError.rangeError
  | len :: rest =>
    let s := codec.decode (rest.take len)
    mkPacketString codec s len

/-! ## UsersService.get and its LRU cache
(src/website/src/services/usersservice.ts)

The lru-cache instance userCache is embedded as an association list of
(key, value, write time) in recency order with the max and maxAge
options; get returns fresh hits (refreshing recency), drops stale
entries and misses otherwise; set writes at the front and evicts down
to max entries. -/

/-- The lru-cache state: options plus entries, most recently used
first. -/
structure LRUCache (K V : Type) where
  max : Nat
  maxAge : Nat
  entries : List (K × V × Nat)
deriving DecidableEq, Repr

/-- An entry is fresh at time now when its age is below maxAge. -/
def lruIsFresh {K V : Type} (cache : LRUCache K V) (now : Nat)
    (e : K × V × Nat) : Bool :=
  decide (now - e.2.2 < cache.maxAge)

/-- lru-cache get: a fresh entry is returned and moved to the front; a
stale entry is dropped; a miss returns undefined. -/
def lruGet {K V : Type} [DecidableEq K] (cache : LRUCache K V) (now : Nat)
    (k : K) : Option V × LRUCache K V :=
  match cache.entries.find? (fun e => decide (e.1 = k)) with
  | none => (none, cache)
  | some e =>
    if lruIsFresh cache now e then
      (some e.2.1,
        { cache with
          entries := e :: cache.entries.filter (fun x => decide (x.1 ≠ k)) })
    else
      (none,
        { cache with
          entries := cache.entries.filter (fun x => decide (x.1 ≠ k)) })

/-- lru-cache set: replace any entry under the key, place the new entry
at the front, evict least recently used entries beyond max. -/
def lruSet {K V : Type} [DecidableEq K] (cache : LRUCache K V) (now : Nat)
    (k : K) (v : V) : LRUCache K V :=
  { cache with
    entries :=
      ((k, v, now) :: cache.entries.filter (fun x => decide (x.1 ≠ k))).take
        cache.max }

/-- The userById cache: new LRU({ max: 100, maxAge: 1000 * 15 }). -/
def userCacheInit : LRUCache Nat User :=
  { max := 100, maxAge := 1000 * 15, entries := [] }

/-- Whether the cache holds a fresh entry under the key at time now. -/
def lruHasFresh {K V : Type} [DecidableEq K] (cache : LRUCache K V)
    (now : Nat) (k : K) : Bool :=
  cache.entries.any (fun e => decide (e.1 = k) && lruIsFresh cache now e)

/-- Observable outcome of UsersService.get: the returned user (null as
none), the cache afterwards, whether an HTTP request was issued and
whether UserSvcPing.isAlive was read. -/
structure GetOutcome where
  result : Option User
  cacheAfter : LRUCache Nat User
  networkCalled : Bool
  probeConsulted : Bool
deriving DecidableEq, Repr

/-- UsersService.get (src/website/src/services/usersservice.ts lines
53-80).  The upstream response is embedded as svcUser, the body of a
200 response or none otherwise; it is only consumed when the code
reaches the HTTP call. -/
def usersServiceGet (userId : Nat) (probeAlive : Bool)
    (svcUser : Option User) (now : Nat) (cache : LRUCache Nat User) :
    GetOutcome :=
  match lruGet cache now userId with
  | (some cachedUser, cacheMid) =>
    { result := some cachedUser, cacheAfter := cacheMid,
      networkCalled := false, probeConsulted := false }
  | (none, cacheMid) =>
    if probeAlive = false then
      { result := none, cacheAfter := cacheMid,
        networkCalled := false, probeConsulted := true }
    else
      match svcUser with
      | none =>
        { result := none, cacheAfter := cacheMid,
          networkCalled := true, probeConsulted := true }
      | some user =>
        { result := some user
          cacheAfter := lruSet cacheMid now user.id user
          networkCalled := true
          probeConsulted := true }

/-- Repeated UsersService.get calls for one user id while the probe
reports not-alive, at the given call times: the list of (result,
networkCalled) pairs and the final cache. -/
def getWhileDead (userId : Nat) :
    List Nat → LRUCache Nat User → List (Option User × Bool) × LRUCache Nat User
  | [], cache => ([], cache)
  | t :: ts, cache =>
    let o := usersServiceGet userId false none t cache
    let r := getWhileDead userId ts o.cacheAfter
    ((o.result, o.networkCalled) :: r.1, r.2)

/-! ## checkServices and the upstream probe (src/unnamed/part_001)

UserSvcPing comes from the authorities module, which is not among the
given sources. -/

/-- Modelled from the spec: the authorities module is absent; the spec
describes the probe as an object whose CheckNow issues a ping to the
user service and updates internal aliveness, and IsAlive reads it.  The
probe state is its aliveness flag; serviceUp is whether the user
service answers the ping during the call. -/
structure ProbeState where
  alive : Bool
deriving DecidableEq, Repr

/-- Modelled from the spec: UserSvcPing.checkNow pings the service and
records whether it answered. -/
def checkNow (serviceUp : Bool) (_s : ProbeState) : ProbeState :=
  { alive := serviceUp }

/-- UserSvcPing.isAlive reads the recorded aliveness. -/
def isAlive (s : ProbeState) : Bool :=
  s.alive

/-- checkServices (src/unnamed/part_001 lines 47-51): awaits
UserSvcPing.checkNow twice, then returns the conjunction of two
isAlive reads. -/
def checkServices (serviceUp : Bool) (s : ProbeState) : Bool × ProbeState :=
  let s1 := checkNow serviceUp s
  let s2 := checkNow serviceUp s1
  (isAlive s2 && isAlive s2, s2)

/-- The single probe check the spec prescribes: one checkNow followed
by one isAlive read. -/
def singleProbeCheck (serviceUp : Bool) (s : ProbeState) :
    Bool × ProbeState :=
  let s1 := checkNow serviceUp s
  (isAlive s1, s1)

/-! ## Concrete sample values used to evaluate the definitions -/

/-- A sample user holding a room. -/
def hostUser : User :=
  { id := 1, username := "host", playername := "Host" }

/-- A sample second user. -/
def bobUser : User :=
  { id := 8, username := "bob", playername := "Bob" }

/-- The host user's session: in channel 0, in room 1. -/
def hostSession : UserSession :=
  { user := hostUser, currentChannelId := some 0, currentRoomId := some 1 }

/-- Bob's session: in channel 0, in no room. -/
def bobSession : UserSession :=
  { user := bobUser, currentChannelId := some 0, currentRoomId := none }

/-- The host user's connection. -/
def hostConn : ExtSocket :=
  { uuid := 100, session := some hostSession }

/-- Bob's connection. -/
def bobConn : ExtSocket :=
  { uuid := 101, session := some bobSession }

/-- A sample waiting room with password "secret", hosted by the host
user. -/
def room1 : Room :=
  { id := 1
    hostUserId := 1
    occupantUserIds := [1]
    maxPlayers := 16
    settings :=
      { roomName := "r1", roomPassword := "secret", gameModeId := 1,
        mapId := 5, killLimit := 30, winLimit := 3, areBotsEnabled := false }
    status := RoomStatus.Waiting }

/-- The sample room during its start countdown. -/
def room1Countdown : Room :=
  { room1 with status := RoomStatus.Countdown }

/-- An UpdateSettings request renaming the sample room. -/
def renameReq : InRoomUpdateSettings :=
  { roomName := some "renamed", roomPassword := none, gameModeId := none,
    mapId := none, killLimit := none, winLimit := none,
    areBotsEnabled := none }

/-- The string codec instance used by the witnesses: a string value is
identified with its list of UTF-8 code units. -/
def byteCodec : Utf8Codec (List (Fin 256)) where
  encode l := l.map Fin.val
  decode l := l.map (fun n => (⟨n % 256, Nat.mod_lt n (by decide)⟩ : Fin 256))
  encode_byte := by
    intro s b hb
    simp only [List.mem_map] at hb
    obtain ⟨x, _, rfl⟩ := hb
    exact x.isLt
  decode_encode := by
    intro s
    induction s with
    | nil => rfl
    | cons x xs ih =>
      simp only [List.map_cons, List.map_map, List.cons.injEq] at ih ⊢
      refine ⟨?_, ih⟩
      exact Fin.ext (Nat.mod_eq_of_lt x.isLt)

/-- The UTF-8 code units of the two-character sample string. -/
def hiBytes : List (Fin 256) := [104, 105]

/-! ## Theorems -/

/-- Helper: a socket whose sequence field holds no numeric value never
stamps one again. -/
theorem stampSeqs_of_seq_none (n : Nat) (s : SocketSeqState)
    (h : s.seq = none) : stampSeqs n s = List.replicate n none := by
  induction n generalizing s with
  | zero => rfl
  | succ k ih =>
    have hstep : stampSeqs (k + 1) s =
        (getNextSeq s).1 :: stampSeqs k (getNextSeq s).2 := rfl
    have hnext : getNextSeq s = (none, s) := by
      simp [getNextSeq, h]
    rw [hstep, hnext, List.replicate_succ]
    exact congrArg (List.cons none) (ih s h)

set_option maxRecDepth 8192 in
/-- Helper: from a numerically initialized sequence field the stamped
bytes follow the contiguous mod-256 series. -/
theorem stampSeqs_of_seq_zero :
    stampSeqs 257 { seq := some 0, realInSeq := 0, realOutSeq := 0 } =
      specSeqSeries 257 := by
  decide

set_option maxRecDepth 8192 in
/-- C1: the claim expects the frames sent on a connection freshly
created by ExtendedSocket.from to carry sequence bytes 0, 1, ..., 255, 0.
The code never assigns the seq field in ExtendedSocket.from, so the
first getNextSeq evaluates undefined++ and every stamped value is NaN
rather than a byte: the 257 frames carry no numeric sequence at all and
in particular differ from the specified series. -/
theorem c1_fresh_socket_stamps_no_sequence_bytes :
    stampSeqs 257 socketFrom = List.replicate 257 none ∧
    stampSeqs 257 socketFrom ≠ specSeqSeries 257 := by
  exact ⟨stampSeqs_of_seq_none 257 socketFrom rfl, by decide⟩

/-- C9: checkServices double-invokes UserSvcPing.checkNow and returns
the conjunction of two isAlive reads; over the probe model this is
extensionally the single check-then-read the spec prescribes, in both
the boolean result and the final probe state. -/
theorem c9_checkservices_equals_single_probe_check
    (serviceUp : Bool) (s : ProbeState) :
    checkServices serviceUp s = singleProbeCheck serviceUp s := by
  cases serviceUp <;> rfl

/-- C3 counterexample: adding an already-registered connection does not
leave the registry unchanged; ActiveConnections.Add pushes a duplicate. -/
theorem c3_add_idempotent_counterexample :
    registryAdd [bobConn] bobConn ≠ [bobConn] := by
  intro h
  have := congrArg List.length h
  simp [registryAdd] at this

/-- C3 amended: Add always appends, so adding a registered connection
duplicates it rather than leaving the registry unchanged; FindByOwnerId
returns the first registered connection whose session's user id
matches, and FindByPlayerName the first whose session's player name
matches, each null when no registered connection matches, provided
every registered connection carries a session. -/
theorem c3_add_appends_and_find_returns_first_match
    (conns : List ExtSocket) (c : ExtSocket) (ownerId : Nat)
    (targetName : String)
    (h : ∀ x ∈ conns, x.session.isSome = true) :
    registryAdd conns c ≠ conns ∧
    (registryAdd conns c).count c = conns.count c + 1 ∧
    FindByOwnerId conns ownerId =
      Except.ok (conns.find? (ownerMatches ownerId)) ∧
    FindByPlayerName conns targetName =
      Except.ok (conns.find? (nameMatches targetName)) := by
  refine ⟨?_, ?_, ?_, ?_⟩
  · intro hcontra
    have := congrArg List.length hcontra
    simp [registryAdd] at this
  · simp [registryAdd]
  · induction conns with
    | nil => rfl
    | cons x xs ih =>
      have hx : x.session.isSome = true := h x (List.mem_cons_self x xs)
      obtain ⟨sx, hsx⟩ := Option.isSome_iff_exists.mp hx
      by_cases hid : sx.user.id = ownerId
      · simp [FindByOwnerId, List.find?_cons, ownerMatches, hsx, hid]
      · have ih' := ih (fun y hy => h y (List.mem_cons_of_mem x hy))
        simpa [FindByOwnerId, List.find?_cons, ownerMatches, hsx, hid]
          using ih'
  · induction conns with
    | nil => rfl
    | cons x xs ih =>
      have hx : x.session.isSome = true := h x (List.mem_cons_self x xs)
      obtain ⟨sx, hsx⟩ := Option.isSome_iff_exists.mp hx
      by_cases hnm : sx.user.playername = targetName
      · simp [FindByPlayerName, List.find?_cons, nameMatches, hsx, hnm]
      · have ih' := ih (fun y hy => h y (List.mem_cons_of_mem x hy))
        simpa [FindByPlayerName, List.find?_cons, nameMatches, hsx, hnm]
          using ih'

/-- C3 witness: the amended contract evaluated on a concrete registry
holding the host's connection, for owner id 1 and player name "Host". -/
theorem c3_add_appends_and_find_returns_first_match_witness :
    registryAdd [hostConn] bobConn ≠ [hostConn] ∧
    (registryAdd [hostConn] bobConn).count bobConn =
      [hostConn].count bobConn + 1 ∧
    FindByOwnerId [hostConn] 1 =
      Except.ok ([hostConn].find? (ownerMatches 1)) ∧
    FindByPlayerName [hostConn] "Host" =
      Except.ok ([hostConn].find? (nameMatches "Host")) :=
  c3_add_appends_and_find_returns_first_match [hostConn] bobConn 1 "Host"
    (by decide)

/-- C10: when the connection to remove is not registered, indexOf
yields -1 and splice(-1, 1) deletes the most recently added connection;
only an empty registry is left unchanged. -/
theorem c10_remove_absent_drops_last
    (conns : List ExtSocket) (c : ExtSocket) (h : c ∉ conns) :
    registryRemove conns c = conns.dropLast ∧
    (conns ≠ [] → registryRemove conns c ≠ conns) := by
  have hidx : jsIndexOf conns c = -1 := by
    have : conns.indexOf? c = none := by
      rw [List.indexOf?_eq_none_iff]
      intro x hx
      simp only [beq_iff_eq]
      intro hxc
      exact h (hxc ▸ hx)
    simp [jsIndexOf, this]
  have hmain : registryRemove conns c = conns.dropLast := by
    rw [registryRemove, hidx, jsSplice1]
    simp only [if_pos (by norm_num : (-1 : Int) < 0)]
    have hact : ((max ((conns.length : Int) + -1) 0).toNat) =
        conns.length - 1 := by
      omega
    rw [hact]
    cases conns with
    | nil => rfl
    | cons a as =>
      have hlen : (a :: as).length - 1 + 1 = (a :: as).length := by
        simp
      rw [hlen, List.drop_length, List.append_nil, List.dropLast_eq_take]
  refine ⟨hmain, fun hne hcontra => ?_⟩
  rw [hmain] at hcontra
  have := congrArg List.length hcontra
  rw [List.length_dropLast] at this
  have : conns.length = 0 := by omega
  exact hne (List.length_eq_zero.mp this)

/-- C10 witness: removing an unregistered connection from a two-element
registry drops the most recently added one. -/
theorem c10_remove_absent_drops_last_witness :
    registryRemove [hostConn, bobConn] { uuid := 999, session := none } =
      [hostConn, bobConn].dropLast ∧
    ([hostConn, bobConn] ≠ [] →
      registryRemove [hostConn, bobConn] { uuid := 999, session := none } ≠
        [hostConn, bobConn]) :=
  c10_remove_absent_drops_last [hostConn, bobConn]
    { uuid := 999, session := none } (by decide)

/-- C2: whenever the registry lookup of the target user id returns
null, onItemUsing and onTeamChangingRequest do not return false: they
read session off the null lookup result and raise a TypeError, so the
handlers are not total when target resolution fails. -/
theorem c2_host_handlers_fault_on_null_target
    (conns : List ExtSocket) (rooms : List Room)
    (itemData : InHostItemUsing) (teamData : InHostTeamChanging)
    (userConn : ExtSocket)
    (hi : FindByOwnerId conns itemData.userId = Except.ok none)
    (ht : FindByOwnerId conns teamData.userId = Except.ok none) :
    onItemUsing conns rooms itemData userConn =
      Except.error JsError.typeError ∧
    onTeamChangingRequest conns rooms teamData userConn =
      Except.error JsError.typeError := by
  constructor
  · rw [onItemUsing, hi]; rfl
  · rw [onTeamChangingRequest, ht]; rfl

/-- C2 witness: a TeamChanging or ItemUsing packet aimed at user id 5
while the registry is empty makes the handler throw instead of denying. -/
theorem c2_host_handlers_fault_on_null_target_witness :
    onItemUsing [] [room1] { userId := 5, itemId := 7 } hostConn =
      Except.error JsError.typeError ∧
    onTeamChangingRequest [] [room1] { userId := 5, newTeam := 1 } hostConn =
      Except.error JsError.typeError :=
  c2_host_handlers_fault_on_null_target [] [room1]
    { userId := 5, itemId := 7 } { userId := 5, newTeam := 1 } hostConn
    rfl rfl

/-- C4: the three login failure cases are handled distinctly and
without side effects: Login = 0 sends the bad-username dialog, Login =
-1 the bad-password dialog, and a null user record after a successful
Login the invalid-user-info dialog; each returns false, leaves the
connection's session as it was and does not touch the registry. -/
theorem c4_login_failure_paths (fetchedUser : Option User)
    (conn : ExtSocket) (conns : List ExtSocket) :
    onLoginPacket 0 fetchedUser conn conns =
      { ret := false, dialogs := [GameString.LOGIN_BAD_USERNAME],
        sessionAfter := conn.session, registryAfter := conns } ∧
    onLoginPacket (-1) fetchedUser conn conns =
      { ret := false, dialogs := [GameString.LOGIN_BAD_PASSWORD],
        sessionAfter := conn.session, registryAfter := conns } ∧
    (∀ loggedUserId : Int, loggedUserId ≠ 0 → loggedUserId ≠ -1 →
      onLoginPacket loggedUserId none conn conns =
        { ret := false, dialogs := [GameString.LOGIN_INVALID_USERINFO],
          sessionAfter := conn.session, registryAfter := conns }) := by
  refine ⟨rfl, rfl, ?_⟩
  intro loggedUserId h0 h1
  simp [onLoginPacket, h0, h1]

/-- C4 witness: the three failure paths evaluated at Login results 0,
-1 and 7 (the last with a null user record) on a fresh connection. -/
theorem c4_login_failure_paths_witness :
    onLoginPacket 0 none { uuid := 3, session := none } [] =
      { ret := false, dialogs := [GameString.LOGIN_BAD_USERNAME],
        sessionAfter := none, registryAfter := [] } ∧
    onLoginPacket 7 none { uuid := 3, session := none } [] =
      { ret := false, dialogs := [GameString.LOGIN_INVALID_USERINFO],
        sessionAfter := none, registryAfter := [] } :=
  ⟨(c4_login_failure_paths none { uuid := 3, session := none } []).1,
    (c4_login_failure_paths none { uuid := 3, session := none } []).2.2 7
      (by decide) (by decide)⟩

/-- C5: a join request for an existing, non-full, password-protected
room with a password that is not byte-for-byte equal to the room's
password sends exactly the BadPassword dialog, returns false, keeps the
requester's session (hence its currentRoom) unchanged and leaves the
channel's rooms (hence the occupant list) unmodified. -/
theorem c5_join_wrong_password_denies_without_change
    (joinReq : InRoomJoinRequest) (session : UserSession)
    (rooms : List Room) (room : Room)
    (hfind : getRoomById rooms joinReq.roomId = some room)
    (hfree : room.hasFreeSlots = true)
    (hprot : room.IsPasswordProtected = true)
    (hpwd : room.ComparePassword joinReq.roomPassword = false) :
    onJoinRoomRequest joinReq session (some rooms) =
      { ret := false, dialogs := [GameString.ROOM_JOIN_FAILED_BAD_PASSWORD],
        sessionAfter := session, roomsAfter := some rooms } := by
  simp [onJoinRoomRequest, hfind, hfree, hprot, hpwd]

/-- C5 witness: Bob joins room 1 (password "secret") with password "x"
and is denied with the BadPassword dialog while nothing changes. -/
theorem c5_join_wrong_password_denies_without_change_witness :
    onJoinRoomRequest { roomId := 1, roomPassword := "x" } bobSession
        (some [room1]) =
      { ret := false, dialogs := [GameString.ROOM_JOIN_FAILED_BAD_PASSWORD],
        sessionAfter := bobSession, roomsAfter := some [room1] } :=
  c5_join_wrong_password_denies_without_change
    { roomId := 1, roomPassword := "x" } bobSession [room1] room1
    (by decide) (by decide) (by decide) (by decide)

/-- C6: an UpdateSettings request on a room in Countdown or Ingame
returns false and leaves every room (hence every settings field)
unchanged; conversely the room store only changes when the requester is
the host of its resolved room and no countdown or match is in
progress. -/
theorem c6_update_settings_guard (req : InRoomUpdateSettings)
    (session : UserSession) (rooms : List Room) :
    (∀ room, resolveRoom rooms session = some room →
      (room.status = RoomStatus.Countdown ∨ room.status = RoomStatus.Ingame) →
      onRoomUpdateSettings req session rooms =
        { ret := false, sessionAfter := session, roomsAfter := rooms }) ∧
    ((onRoomUpdateSettings req session rooms).roomsAfter ≠ rooms →
      ∃ room, resolveRoom rooms session = some room ∧
        session.user.id = room.hostUserId ∧
        room.status ≠ RoomStatus.Countdown ∧
        room.status ≠ RoomStatus.Ingame) := by
  constructor
  · intro room hres hst
    by_cases hhost : session.user.id ≠ room.hostUserId
    · simp [onRoomUpdateSettings, hres, hhost]
    · push_neg at hhost
      have hcd : room.isGlobalCountdownInProgress = true := by
        simp [Room.isGlobalCountdownInProgress, hst]
      simp [onRoomUpdateSettings, hres, hhost, hcd]
  · intro hchange
    cases hres : resolveRoom rooms session with
    | none =>
      rw [onRoomUpdateSettings, hres] at hchange
      simp at hchange
    | some room =>
      by_cases hhost : session.user.id ≠ room.hostUserId
      · rw [onRoomUpdateSettings, hres] at hchange
        simp [hhost] at hchange
      · push_neg at hhost
        by_cases hcd : room.isGlobalCountdownInProgress = true
        · rw [onRoomUpdateSettings, hres] at hchange
          simp [hhost, hcd] at hchange
        · have hst : room.status ≠ RoomStatus.Countdown ∧
              room.status ≠ RoomStatus.Ingame := by
            simpa [Room.isGlobalCountdownInProgress, not_or] using hcd
          exact ⟨room, rfl, hhost, hst.1, hst.2⟩

/-- C6 witness: a rename request from the host while room 1 counts
down is denied and the room store is untouched. -/
theorem c6_update_settings_guard_witness :
    onRoomUpdateSettings renameReq hostSession [room1Countdown] =
      { ret := false, sessionAfter := hostSession,
        roomsAfter := [room1Countdown] } :=
  (c6_update_settings_guard renameReq hostSession [room1Countdown]).1
    room1Countdown (by decide) (Or.inl (by decide))

/-- C7: for every string whose UTF-8 encoding is at most 255 bytes,
PacketString.toBuffer writes exactly the UTF-8 byte count as the length
prefix, and PacketString.from on the produced buffer neither throws nor
alters the string: it returns the original PacketString. -/
theorem c7_packetstring_roundtrip {σ : Type} (codec : Utf8Codec σ) (s : σ)
    (h : (codec.encode s).length ≤ 255) :
    packetStringFrom codec (packetStringToBuffer codec (packetStringOf codec s)) =
      Except.ok (packetStringOf codec s) ∧
    (packetStringToBuffer codec (packetStringOf codec s)).head? =
      some (codec.encode s).length := by
  have hmod : (codec.encode s).length % 256 = (codec.encode s).length :=
    Nat.mod_eq_of_lt (Nat.lt_of_le_of_lt h (by norm_num))
  have hbuf : packetStringToBuffer codec (packetStringOf codec s) =
      (codec.encode s).length :: codec.encode s := by
    simp [packetStringToBuffer, packetStringOf, hmod, List.take_length]
  refine ⟨?_, by rw [hbuf]; rfl⟩
  rw [hbuf]
  simp [packetStringFrom, mkPacketString, List.take_length,
    codec.decode_encode, packetStringOf]

/-- C7 witness: the round trip evaluated on a two-byte string under the
byte codec. -/
theorem c7_packetstring_roundtrip_witness :
    packetStringFrom byteCodec
        (packetStringToBuffer byteCodec (packetStringOf byteCodec hiBytes)) =
      Except.ok (packetStringOf byteCodec hiBytes) ∧
    (packetStringToBuffer byteCodec (packetStringOf byteCodec hiBytes)).head? =
      some (byteCodec.encode hiBytes).length :=
  c7_packetstring_roundtrip byteCodec hiBytes (by decide)

/-- Helper: freshness only decays: a key with no fresh entry now has
none at any later time either. -/
theorem lruHasFresh_mono {K V : Type} [DecidableEq K] (c : LRUCache K V)
    (k : K) {now t : Nat} (hle : now ≤ t)
    (h : lruHasFresh c now k = false) : lruHasFresh c t k = false := by
  simp only [lruHasFresh, lruIsFresh, List.any_eq_false, Bool.and_eq_true,
    decide_eq_true_eq, not_and] at h ⊢
  intro e he hk
  have := h e he hk
  omega

/-- Helper: on a key without a fresh entry, lru-cache get misses and
the key still has no fresh entry afterwards at any later time. -/
theorem lruGet_no_fresh {K V : Type} [DecidableEq K] (c : LRUCache K V)
    (now : Nat) (k : K) (h : lruHasFresh c now k = false) :
    (lruGet c now k).1 = none ∧
    ∀ t, now ≤ t → lruHasFresh (lruGet c now k).2 t k = false := by
  unfold lruGet
  cases hf : c.entries.find? (fun e => decide (e.1 = k)) with
  | none =>
    refine ⟨rfl, fun t ht => ?_⟩
    exact lruHasFresh_mono c k ht h
  | some e =>
    have hmem : e ∈ c.entries := List.mem_of_find?_eq_some hf
    have hkey : e.1 = k := by
      have := List.find?_some hf
      simpa using this
    have hstale : lruIsFresh c now e = false := by
      cases hfr : lruIsFresh c now e with
      | false => rfl
      | true =>
        exfalso
        have htrue : lruHasFresh c now k = true := by
          simp only [lruHasFresh, List.any_eq_true]
          exact ⟨e, hmem, by simp [hkey, hfr]⟩
        rw [h] at htrue
        exact Bool.noConfusion htrue
    refine ⟨?_, fun t _ => ?_⟩
    · simp [hstale]
    · simp only [hstale, Bool.false_eq_true, if_false]
      simp only [lruHasFresh, List.any_eq_false, Bool.and_eq_true,
        decide_eq_true_eq, not_and]
      intro e2 he2
      have hne : decide (e2.1 ≠ k) = true := (List.mem_filter.mp he2).2
      intro hk2
      exact absurd hk2 (by simpa using hne)

/-- Helper: repeated UsersService.get calls for a user id with no fresh
cache entry, while the probe reports not-alive, all return null and
never issue a network call. -/
theorem getWhileDead_all_none (userId : Nat) :
    ∀ (times : List Nat) (now : Nat) (cache : LRUCache Nat User),
      List.Chain (· ≤ ·) now times →
      lruHasFresh cache now userId = false →
      (getWhileDead userId times cache).1 =
        times.map (fun _ => ((none : Option User), false)) := by
  intro times
  induction times with
  | nil => intro now cache _ _; rfl
  | cons t ts ih =>
    intro now cache hchain h
    obtain ⟨hnt, hchain2⟩ := List.chain_cons.mp hchain
    have ht : lruHasFresh cache t userId = false :=
      lruHasFresh_mono cache userId hnt h
    obtain ⟨h1, h2⟩ := lruGet_no_fresh cache t userId ht
    rcases hlg : lruGet cache t userId with ⟨res, mid⟩
    rw [hlg] at h1 h2
    simp only [] at h1 h2
    subst h1
    have heq : usersServiceGet userId false none t cache =
        { result := none, cacheAfter := mid,
          networkCalled := false, probeConsulted := true } := by
      simp [usersServiceGet, hlg]
    simp only [getWhileDead, heq, List.map_cons]
    exact congrArg (List.cons (none, false))
      (ih t mid hchain2 (h2 t le_rfl))

/-- C8: a get for a user id with no fresh cache entry while the probe
reports not-alive returns null without a network call and the id stays
without a fresh entry, so every further call while the probe stays
not-alive also returns null without a network call; a fresh cached
entry is returned without consulting the probe or the network; the
userById cache is configured with capacity 100 and a 15-second TTL. -/
theorem c8_users_get_gating (userId : Nat) (svcUser : Option User)
    (now : Nat) (cache : LRUCache Nat User) :
    (lruHasFresh cache now userId = false →
      (usersServiceGet userId false svcUser now cache).result = none ∧
      (usersServiceGet userId false svcUser now cache).networkCalled = false ∧
      ∀ t, now ≤ t →
        lruHasFresh (usersServiceGet userId false svcUser now cache).cacheAfter
          t userId = false) ∧
    (∀ u probeAlive, (lruGet cache now userId).1 = some u →
      (usersServiceGet userId probeAlive svcUser now cache).result = some u ∧
      (usersServiceGet userId probeAlive svcUser now cache).probeConsulted =
        false ∧
      (usersServiceGet userId probeAlive svcUser now cache).networkCalled =
        false) ∧
    (userCacheInit.max = 100 ∧ userCacheInit.maxAge = 15000) ∧
    (∀ times : List Nat, List.Chain (· ≤ ·) now times →
      lruHasFresh cache now userId = false →
      (getWhileDead userId times cache).1 =
        times.map (fun _ => ((none : Option User), false))) := by
  refine ⟨?_, ?_, ⟨rfl, rfl⟩, ?_⟩
  · intro h
    obtain ⟨h1, h2⟩ := lruGet_no_fresh cache now userId h
    rcases hlg : lruGet cache now userId with ⟨res, mid⟩
    rw [hlg] at h1 h2
    simp only [] at h1 h2
    subst h1
    have heq : usersServiceGet userId false svcUser now cache =
        { result := none, cacheAfter := mid,
          networkCalled := false, probeConsulted := true } := by
      simp [usersServiceGet, hlg]
    rw [heq]
    exact ⟨rfl, rfl, h2⟩
  · intro u probeAlive hu
    rcases hlg : lruGet cache now userId with ⟨res, mid⟩
    rw [hlg] at hu
    simp only [] at hu
    subst hu
    have heq : usersServiceGet userId probeAlive svcUser now cache =
        { result := some u, cacheAfter := mid,
          networkCalled := false, probeConsulted := false } := by
      simp [usersServiceGet, hlg]
    rw [heq]
    exact ⟨rfl, rfl, rfl⟩
  · intro times hchain h
    exact getWhileDead_all_none userId times now cache hchain h

/-- C8 witness: with an empty cache and a dead probe, a get for user 42
at time 1000 returns null without a network call, and two successive
calls at times 1000 and 1005 both do. -/
theorem c8_users_get_gating_witness :
    ((usersServiceGet 42 false none 1000 userCacheInit).result = none ∧
     (usersServiceGet 42 false none 1000 userCacheInit).networkCalled =
       false ∧
     ∀ t, 1000 ≤ t →
       lruHasFresh (usersServiceGet 42 false none 1000 userCacheInit).cacheAfter
         t 42 = false) ∧
    (getWhileDead 42 [1000, 1005] userCacheInit).1 =
      [1000, 1005].map (fun _ => ((none : Option User), false)) :=
  ⟨(c8_users_get_gating 42 none 1000 userCacheInit).1 (by decide),
    (c8_users_get_gating 42 none 1000 userCacheInit).2.2.2 [1000, 1005]
      (by norm_num [List.chain_cons]) (by decide)⟩

end Cso2
